import Mathlib

/-!
# Verification of the jynk payment settlement engine

A shallow embedding of the settlement core of the jynk repository:
the server-side settlement ledger (`backend` database layer and the two
payment-verification services), the `/api/pay/direct` request validation,
the client-side payment orchestration entry guards, the Solana RPC-fallback
logic, and the x402 protocol codec (base64 + JSON envelope encoding).

Conventions:
* database TEXT columns are `String`, REAL columns are `Rat`, INTEGER
  columns are `Nat`/`Int`, and nullable columns are `Option`;
* `Date.now()` is passed explicitly as a `now : Nat` parameter;
* JavaScript exceptions become `Except String` carrying the thrown message;
* statements that mutate the database thread a `DBState` value explicitly.
-/

deriving instance DecidableEq for Except

namespace Jynk

/-- A row of the `products` table (`backend/src/db/index.ts`, CREATE TABLE
`products`).  Columns not read by the settlement engine (`name`,
`description`, `encrypted_url`, `created_at`) are omitted. -/
structure Product where
  id : String
  price : Rat
  target_url : String
  creator_address : String
  sold_count : Nat
  max_quantity : Option Int
  is_active : Bool
  deriving Repr, DecidableEq

/-- A row of the `purchases` table (`backend/src/db/index.ts`).  The
`created_at` column is omitted. -/
structure Purchase where
  id : String
  product_id : String
  buyer_address : String
  tx_hash : String
  network : String
  amount : Rat
  deriving Repr, DecidableEq

/-- A row of the `store_profiles` table, restricted to the columns the
settlement engine touches (`address`, `total_earned`). -/
structure StoreProfile where
  address : String
  total_earned : Rat
  deriving Repr, DecidableEq

/-- The persistent database state consumed and produced by the settlement
ledger: the three tables of §3 of the data model. -/
structure DBState where
  products : List Product
  purchases : List Purchase
  profiles : List StoreProfile
  deriving Repr, DecidableEq

/-- `getProductByIdInternal` (db/index.ts): `SELECT * FROM products WHERE
id = ?` — bypasses the `is_active` filter. -/
def getProductByIdInternal (s : DBState) (id : String) : Option Product :=
  s.products.find? (fun p => p.id == id)

/-- `getProductById` with the default `includeInactive = false`
(db/index.ts): `SELECT * FROM products WHERE id = ? AND is_active = 1`. -/
def getProductById (s : DBState) (id : String) : Option Product :=
  s.products.find? (fun p => p.id == id && p.is_active)

/-- `getPurchaseByTxHash` (db/index.ts): `SELECT * FROM purchases WHERE
tx_hash = ? LIMIT 1`. -/
def getPurchaseByTxHash (s : DBState) (tx : String) : Option Purchase :=
  s.purchases.find? (fun p => p.tx_hash == tx)

/-- `addPurchase` (db/index.ts): `INSERT INTO purchases ...`.  The insert
throws when the `id` PRIMARY KEY is violated or when the `network` CHECK
constraint (`network IN ('base','solana')`) is violated; there is no
uniqueness constraint on `tx_hash`. -/
def addPurchase (s : DBState) (p : Purchase) : Except String DBState :=
  if s.purchases.any (fun q => q.id == p.id) then
    .error "UNIQUE constraint failed: purchases.id"
  else if p.network != "base" && p.network != "solana" then
    .error "CHECK constraint failed: purchases"
  else
    .ok { s with purchases := p :: s.purchases }

/-- `updateProductSales` (db/index.ts lines 243-248): re-reads the product
and writes back `sold_count + 1` (`(product.sold_count || 0) + 1`); a no-op
when the product does not exist. -/
def updateProductSales (s : DBState) (id : String) : DBState :=
  match getProductByIdInternal s id with
  | none => s
  | some _ =>
      { s with
        products := s.products.map (fun p =>
          if p.id == id then { p with sold_count := p.sold_count + 1 } else p) }

/-- `updateProfileEarnings` (db/index.ts): `UPDATE store_profiles SET
total_earned = total_earned + ? WHERE address = ?` — a no-op when the
creator has no profile row. -/
def updateProfileEarnings (s : DBState) (address : String) (amount : Rat) :
    DBState :=
  { s with
    profiles := s.profiles.map (fun pr =>
      if pr.address == address then
        { pr with total_earned := pr.total_earned + amount }
      else pr) }

namespace PaymentService

/-- Step 3 of `PaymentService.verifyPayment` (Solana-only backend,
`src/hooks/useSolanaPayment.ts` concatenation, lines 238-243):
`max_quantity !== null && max_quantity > 0 && sold_count >= max_quantity`. -/
def soldOut (p : Product) : Bool :=
  match p.max_quantity with
  | none => false
  | some m => 0 < m && m ≤ (p.sold_count : Int)

/-- `PaymentService.verifyPayment(productId, txHash, buyerAddress)` of the
Solana-only backend (lines 214-276 of the concatenation in
`src/src/hooks/useSolanaPayment.ts`).  `now` is `Date.now()` at the time
the purchase id is minted.  Returns the `(txHash, unlockedContent)` result
or the thrown error message, paired with the database state afterwards. -/
def verifyPayment (s : DBState) (productId txHash buyerAddress : String)
    (now : Nat) : Except String (String × String) × DBState :=
  match getProductByIdInternal s productId with
  | none => (.error "Product not found", s)
  | some product =>
      if !product.is_active then (.error "Product is not active", s)
      else if soldOut product then (.error "Product is sold out", s)
      else
        match getPurchaseByTxHash s txHash with
        | some _ => (.error "This transaction has already been processed", s)
        | none =>
            match addPurchase s
                { id := txHash ++ "_" ++ toString now
                  product_id := productId
                  buyer_address := buyerAddress
                  tx_hash := txHash
                  network := "solana"
                  amount := product.price } with
            | .error e => (.error e, s)
            | .ok s1 =>
                let s2 := updateProductSales s1 productId
                let s3 := updateProfileEarnings s2 product.creator_address
                    product.price
                (.ok (txHash, product.target_url), s3)

end PaymentService

/-- The `authorization` record inside an x402 `PaymentPayload`
(`config/x402.ts`); `from` is rendered `fromAddr` (Lean keyword). -/
structure X402Authorization where
  fromAddr : String
  toAddr : String
  value : String
  validAfter : String
  validBefore : String
  nonce : String
  deriving Repr, DecidableEq

/-- The `payload` field of an x402 `PaymentPayload`. -/
structure X402Inner where
  signature : String
  authorization : X402Authorization
  deriving Repr, DecidableEq

/-- A decoded x402 `PaymentPayload` envelope (`backend/src/types`). -/
structure X402PaymentPayload where
  x402Version : Nat
  scheme : String
  network : String
  payload : X402Inner
  deriving Repr, DecidableEq

/-- One byte of `Buffer.from(signature).toString('hex')`: the two lowercase
hex digits of a character's code.  Models UTF-8 on ASCII input (every
signature the client produces is an ASCII `0x…` hex string). -/
def hexOfCharCode (c : Char) : List Char :=
  let lo := c.toNat % 16
  let hi := c.toNat / 16 % 16
  [if hi < 10 then Char.ofNat (48 + hi) else Char.ofNat (87 + hi),
   if lo < 10 then Char.ofNat (48 + lo) else Char.ofNat (87 + lo)]

/-- `` `0x${Buffer.from(payload.payload.signature).toString('hex').slice(0, 64)}` ``
(backend/src/services/x402.ts line 42): the transaction reference the EVM
path derives from the signature bytes. -/
def deriveTxHash (sig : String) : String :=
  "0x" ++ String.mk (((sig.toList.map hexOfCharCode).flatten).take 64)

namespace X402Service

/-- `X402Service.verifyPayment` (backend/src/services/x402.ts lines 29-62),
modelled after the `decodePaymentPayload` step: it looks the product up with
the active-only `getProductById`, derives the transaction reference from the
signature, classifies the network by the `eip155:8453` prefix, records the
purchase and increments the sold count.  It performs no replay check, no
sold-out check and no earnings update. -/
def verifyPayment (s : DBState) (productId : String)
    (payload : X402PaymentPayload) (buyerAddress : String) (now : Nat) :
    Except String (String × String) × DBState :=
  match getProductById s productId with
  | none => (.error "Product not found", s)
  | some product =>
      let txHash := deriveTxHash payload.payload.signature
      let network :=
        if (String.toList "eip155:8453").isPrefixOf payload.network.toList
        then "base" else "baseSepolia"
      match addPurchase s
          { id := txHash ++ "_" ++ toString now
            product_id := productId
            buyer_address := buyerAddress
            tx_hash := txHash
            network := network
            amount := product.price } with
      | .error e => (.error e, s)
      | .ok s1 => (.ok (txHash, product.target_url), updateProductSales s1 productId)

end X402Service

/-! ## Characterisation lemmas for the two verification services -/

/-- The purchase row `PaymentService.verifyPayment` mints for a successful
Solana settlement. -/
def solanaPurchase (pid tx addr : String) (now : Nat) (price : Rat) : Purchase :=
  { id := tx ++ "_" ++ toString now
    product_id := pid
    buyer_address := addr
    tx_hash := tx
    network := "solana"
    amount := price }

/-- The database state after a successful Solana settlement: one new
purchase row, `sold_count` of the product bumped by one, the creator's
`total_earned` bumped by the price. -/
def solanaSettled (s : DBState) (pid tx addr : String) (now : Nat)
    (product : Product) : DBState :=
  { products := s.products.map (fun p =>
      if p.id == pid then { p with sold_count := p.sold_count + 1 } else p)
    purchases := solanaPurchase pid tx addr now product.price :: s.purchases
    profiles := s.profiles.map (fun pr =>
      if pr.address == product.creator_address then
        { pr with total_earned := pr.total_earned + product.price }
      else pr) }

/-- The purchase row `X402Service.verifyPayment` mints. -/
def x402Purchase (pid sig addr : String) (now : Nat) (price : Rat) : Purchase :=
  { id := deriveTxHash sig ++ "_" ++ toString now
    product_id := pid
    buyer_address := addr
    tx_hash := deriveTxHash sig
    network := "base"
    amount := price }

/-! ## Client-side payment orchestration (`useSolanaPayment`, `useX402Payment`) -/

/-- The orchestrator status values (`SolanaPaymentStatus` /
`X402PaymentStatus`). -/
inductive OrchestratorStatus where
  | idle | signing | submitting | verifying | success | error
  deriving Repr, DecidableEq

/-- Does `needle` occur as a contiguous run inside `hay`? -/
def containsSub (hay needle : List Char) : Bool :=
  needle.isPrefixOf hay ||
    match hay with
    | [] => false
    | _ :: t => containsSub t needle

/-- Models JavaScript `String.prototype.includes`. -/
def strIncludes (s sub : String) : Bool :=
  containsSub s.toList sub.toList

/-- An error raised while fetching the recipient token account:
`TokenAccountNotFoundError` or any other error carrying a message. -/
inductive SolFetchErr where
  | tokenAccountNotFound
  | other (msg : String)
  deriving Repr, DecidableEq

/-- The probe string `isRpcError` inspects: `error.message ||
String(error)`.  A `TokenAccountNotFoundError` has an empty `message`, so
the falsy-`||` falls through to `String(error)`, which is the error's
name. -/
def SolFetchErr.message : SolFetchErr → String
  | .tokenAccountNotFound => "TokenAccountNotFoundError"
  | .other m => m

/-- `isRpcError` (src/src/hooks/useSolanaPayment.ts lines 29-38): an error
is RPC-classified when its message contains one of six substrings. -/
def isRpcError (e : SolFetchErr) : Bool :=
  let m := e.message
  strIncludes m "403" || strIncludes m "Access forbidden" ||
    strIncludes m "rate limit" || strIncludes m "timeout" ||
    strIncludes m "fetch" || strIncludes m "network"

/-- Outcome of one `getAccount(connection, recipientAta)` call. -/
inductive FetchOutcome where
  | ok
  | err (e : SolFetchErr)
  deriving Repr, DecidableEq

/-- The recipient-account step of `pay` (useSolanaPayment.ts lines 76-113):
on an RPC-classified primary failure, retry once on the fallback
connection; a `TokenAccountNotFoundError` (from either endpoint) leads to
an ATA-creation instruction rather than an error; anything else is
rethrown.  Returns `(usedFallback, addedCreateInstruction)` on success. -/
def fetchRecipientAccountStep (primary fallback : FetchOutcome) :
    Except SolFetchErr (Bool × Bool) :=
  match primary with
  | .ok => .ok (false, false)
  | .err e =>
      if isRpcError e then
        match fallback with
        | .ok => .ok (true, false)
        | .err fe =>
            match fe with
            | .tokenAccountNotFound => .ok (true, true)
            | .other _ => .error fe
      else
        match e with
        | .tokenAccountNotFound => .ok (false, true)
        | .other _ => .error e

/-- The error-to-user-message mapping of `pay`'s catch block
(useSolanaPayment.ts lines 151-164). -/
def solanaCatchMessage (e : SolFetchErr) : String :=
  if isRpcError e then
    "Network connection issue. Please check your internet connection and try again."
  else if strIncludes e.message "insufficient funds" then
    "Insufficient USDC balance. Please add funds to your wallet."
  else if strIncludes e.message "User rejected" then
    "Transaction was cancelled."
  else e.message

/-- What `pay()` does on entry, before any asynchronous step. -/
inductive PayStart where
  | rejected (msg : String)
  | startsSigning
  deriving Repr, DecidableEq

namespace useSolanaPayment

/-- The entry of `useSolanaPayment.pay` (lines 47-55): the only condition
checked before the signing flow starts is `!publicKey`; the current
orchestrator `status` is not consulted. -/
def payEntry (walletConnected : Bool) (status : OrchestratorStatus) : PayStart :=
  if !walletConnected then .rejected "Wallet not connected" else .startsSigning

/-- The observable result of one `pay` invocation. -/
structure PayResult where
  status : OrchestratorStatus
  usedFallback : Bool
  createdAta : Bool
  errorMsg : String
  deriving Repr, DecidableEq

/-- `useSolanaPayment.pay` (lines 47-168), with the two `getAccount`
outcomes passed explicitly.  The steps after the recipient-account fetch
(blockhash, `sendTransaction`, confirmation, backend verification) are
modelled as succeeding — only the fetch step can fail here, which is the
scenario the RPC-fallback claim quantifies over. -/
def pay (walletConnected : Bool) (status : OrchestratorStatus)
    (primary fallback : FetchOutcome) : PayResult :=
  match payEntry walletConnected status with
  | .rejected m =>
      { status := .error, usedFallback := false, createdAta := false
        errorMsg := m }
  | .startsSigning =>
      match fetchRecipientAccountStep primary fallback with
      | .error e =>
          { status := .error
            usedFallback := match primary with | .err pe => isRpcError pe | _ => false
            createdAta := false
            errorMsg := solanaCatchMessage e }
      | .ok (usedFb, created) =>
          { status := .success, usedFallback := usedFb, createdAta := created
            errorMsg := "" }

end useSolanaPayment

namespace useX402Payment

/-- The entry of `useX402Payment.pay` (src/unnamed/part_013 lines 49-58):
only wallet presence (`!address || !walletClient || !publicClient`) is
checked; the current `status` is not consulted. -/
def payEntry (walletConnected : Bool) (status : OrchestratorStatus) : PayStart :=
  if !walletConnected then .rejected "Wallet not connected" else .startsSigning

end useX402Payment

/-! ## The `POST /api/pay/direct` route (Solana-only backend) -/

/-- The request body of `POST /api/pay/direct`; absent JSON fields are
`none`. -/
structure DirectPayBody where
  productId : Option String
  txHash : Option String
  network : Option String
  buyerAddress : Option String
  deriving Repr, DecidableEq

/-- JavaScript falsiness of an optional string field (`!x`): absent or
empty. -/
def falsyStr : Option String → Bool
  | none => true
  | some s => s == ""

/-- `network && network !== 'solana'` (route line 312): the network check
rejects only a *present, non-empty* value different from `"solana"`. -/
def networkRejected : Option String → Bool
  | none => false
  | some n => !(n == "") && !(n == "solana")

/-- One character of the route's `/^[a-zA-Z0-9]{88}$/` class. -/
def isAlnumChar (c : Char) : Bool :=
  (48 ≤ c.toNat && c.toNat ≤ 57) || (65 ≤ c.toNat && c.toNat ≤ 90) ||
    (97 ≤ c.toNat && c.toNat ≤ 122)

/-- The route's transaction-hash test `/^[a-zA-Z0-9]{88}$/`. -/
def matchesTxHashRegex (s : String) : Bool :=
  s.length == 88 && s.toList.all isAlnumChar

/-- Modelled from the spec (§6): the "88-character base58 Solana signature
shape".  The base58 alphabet excludes `0`, `O`, `I` and `l`.  This is the
spec-side predicate the route's regex is compared against; it does not
appear in the source. -/
def isBase58Char (c : Char) : Bool :=
  isAlnumChar c && !(c == '0') && !(c == 'O') && !(c == 'I') && !(c == 'l')

/-- Modelled from the spec (§6): an 88-character base58 string. -/
def specSolanaSignatureShape (s : String) : Bool :=
  s.length == 88 && s.toList.all isBase58Char

/-- How the route disposes of a request: an HTTP 400 rejection, or reaching
the settlement step (`PaymentService.verifyPayment`). -/
inductive DirectPayOutcome where
  | badRequest (message : String)
  | settles (productId txHash buyerAddress : String)
  deriving Repr, DecidableEq

/-- The validation prefix of `POST /api/pay/direct` (lines 297-331 of the
Solana-only backend): missing-field check, network check, hash-shape
check; requests passing all three reach `PaymentService.verifyPayment`. -/
def payDirectRoute (b : DirectPayBody) : DirectPayOutcome :=
  if falsyStr b.productId || falsyStr b.txHash || falsyStr b.buyerAddress then
    .badRequest "Missing required fields: productId, txHash, buyerAddress"
  else if networkRejected b.network then
    .badRequest "Only Solana network is supported"
  else if !matchesTxHashRegex (b.txHash.getD "") then
    .badRequest "Invalid Solana transaction hash format"
  else
    .settles (b.productId.getD "") (b.txHash.getD "") (b.buyerAddress.getD "")

/-! ## Concrete fixtures used by counterexamples and witnesses -/

/-- An active product with a quantity cap of 2. -/
def exProduct : Product :=
  { id := "p1", price := 10, target_url := "https://example.com/a"
    creator_address := "alice", sold_count := 0, max_quantity := some 2
    is_active := true }

/-- A product the seller has deactivated. -/
def exInactiveProduct : Product :=
  { id := "p2", price := 10, target_url := "https://example.com/b"
    creator_address := "alice", sold_count := 0, max_quantity := none
    is_active := false }

/-- A product whose `max_quantity` column holds 0 while three units have
already been sold. -/
def exCapZeroProduct : Product :=
  { id := "p0", price := 10, target_url := "https://example.com/c"
    creator_address := "alice", sold_count := 3, max_quantity := some 0
    is_active := true }

/-- A product sold out at its cap of 1. -/
def exSoldOutProduct : Product :=
  { id := "p3", price := 10, target_url := "https://example.com/d"
    creator_address := "alice", sold_count := 1, max_quantity := some 1
    is_active := true }

def exProfiles : List StoreProfile := [{ address := "alice", total_earned := 0 }]

def exState : DBState :=
  { products := [exProduct], purchases := [], profiles := exProfiles }

def exStateInactive : DBState :=
  { products := [exInactiveProduct], purchases := [], profiles := exProfiles }

def exStateCapZero : DBState :=
  { products := [exCapZeroProduct], purchases := [], profiles := exProfiles }

def exStateSoldOut : DBState :=
  { products := [exSoldOutProduct], purchases := [], profiles := exProfiles }

/-- A state in which the on-chain reference `"SIGA"` has already settled. -/
def exStateReplayed : DBState :=
  { exState with purchases := [solanaPurchase "p1" "SIGA" "bob" 5 10] }

def exAuth : X402Authorization :=
  { fromAddr := "0xF", toAddr := "0xT", value := "9990000", validAfter := "0"
    validBefore := "1700000300", nonce := "0xN" }

/-- A second authorization record differing from `exAuth` in value, validity
window and nonce. -/
def exAuthB : X402Authorization :=
  { fromAddr := "0xF", toAddr := "0xT", value := "1", validAfter := "5"
    validBefore := "1700009999", nonce := "0xM" }

def exPayload : X402PaymentPayload :=
  { x402Version := 1, scheme := "exact", network := "eip155:8453"
    payload := { signature := "0xabc", authorization := exAuth } }

/-- Same as `exPayload` except for the signature string. -/
def exPayloadSigB : X402PaymentPayload :=
  { x402Version := 1, scheme := "exact", network := "eip155:8453"
    payload := { signature := "0xdef", authorization := exAuth } }

/-- An 88-character string of `'0'`s: matches the route's alphanumeric
regex but is not base58. -/
def c7Tx : String := String.mk (List.replicate 88 '0')

/-! ## Base64 (`btoa` / `atob`)

Byte strings are `List Nat` with values below 256 (JavaScript `btoa`
rejects code points above 255, and all strings the codec handles are
ASCII).  `btoaBytes`/`atobBytes` model the canonical padded base64 of
`btoa`/`atob`. -/

/-- The base64 alphabet: sextet value to character code. -/
def b64CharCode (n : Nat) : Nat :=
  if n < 26 then 65 + n
  else if n < 52 then 97 + (n - 26)
  else if n < 62 then 48 + (n - 52)
  else if n = 62 then 43
  else 47

/-- Character code back to sextet value. -/
def b64Value (c : Nat) : Option Nat :=
  if 65 ≤ c ∧ c ≤ 90 then some (c - 65)
  else if 97 ≤ c ∧ c ≤ 122 then some (26 + (c - 97))
  else if 48 ≤ c ∧ c ≤ 57 then some (52 + (c - 48))
  else if c = 43 then some 62
  else if c = 47 then some 63
  else none

/-- `btoa`: three bytes become four characters; `=` (61) pads. -/
def btoaBytes : List Nat → List Nat
  | [] => []
  | [a] => [b64CharCode (a / 4), b64CharCode (a % 4 * 16), 61, 61]
  | [a, b] => [b64CharCode (a / 4), b64CharCode (a % 4 * 16 + b / 16),
      b64CharCode (b % 16 * 4), 61]
  | a :: b :: c :: rest =>
      b64CharCode (a / 4) :: b64CharCode (a % 4 * 16 + b / 16) ::
        b64CharCode (b % 16 * 4 + c / 64) :: b64CharCode (c % 64) ::
        btoaBytes rest

/-- `atob` on canonically padded input; `none` models the thrown
`InvalidCharacterError`. -/
def atobBytes : List Nat → Option (List Nat)
  | [] => some []
  | c1 :: c2 :: c3 :: c4 :: rest =>
      match b64Value c1, b64Value c2 with
      | some v1, some v2 =>
          if c3 = 61 then
            if c4 = 61 ∧ rest = [] then some [v1 * 4 + v2 / 16] else none
          else
            match b64Value c3 with
            | some v3 =>
                if c4 = 61 then
                  if rest = [] then
                    some [v1 * 4 + v2 / 16, v2 % 16 * 16 + v3 / 4]
                  else none
                else
                  match b64Value c4 with
                  | some v4 =>
                      match atobBytes rest with
                      | some tl =>
                          some ((v1 * 4 + v2 / 16) :: (v2 % 16 * 16 + v3 / 4) ::
                            (v3 % 4 * 64 + v4) :: tl)
                      | none => none
                  | none => none
            | none => none
      | _, _ => none
  | _ => none

/-! ## JSON values

The fragment of JSON the codec exercises: strings, natural numbers,
arrays, objects.  Element and member lists are mutual inductives so that
every function below is plain structural recursion.  String contents are
byte lists (code points below 256). -/

mutual

inductive Json where
  | str (s : List Nat)
  | num (n : Nat)
  | arr (elems : JsonArr)
  | obj (fields : JsonObj)

inductive JsonArr where
  | nil
  | cons (hd : Json) (tl : JsonArr)

inductive JsonObj where
  | nil
  | cons (key : List Nat) (val : Json) (tl : JsonObj)

end

/-- `JSON.stringify` escaping for one byte: `"` and `\x5c` get a
backslash.  (`JSON.stringify` additionally `\u`-escapes control bytes
below 32; the well-formedness predicate `wfJson` excludes those.) -/
def jsonEscapeByte (b : Nat) : List Nat :=
  if b = 34 ∨ b = 92 then [92, b] else [b]

def jsonEscape : List Nat → List Nat
  | [] => []
  | b :: t => jsonEscapeByte b ++ jsonEscape t

/-- Decimal digits of `n`, most significant first (fuel-structural so it
kernel-evaluates). -/
def natDigitsAux : Nat → Nat → List Nat → List Nat
  | 0, _, acc => acc
  | fuel + 1, n, acc =>
      if n < 10 then (48 + n) :: acc
      else natDigitsAux fuel (n / 10) ((48 + n % 10) :: acc)

def natDigits (n : Nat) : List Nat := natDigitsAux (n + 1) n []

/-- The serialized form of a string literal. -/
def strLit (s : List Nat) : List Nat := 34 :: (jsonEscape s ++ [34])

mutual

/-- `JSON.stringify` on the modelled fragment (no added whitespace,
insertion-ordered object members). -/
def stringifyJson : Json → List Nat
  | .str s => strLit s
  | .num n => natDigits n
  | .arr .nil => [91, 93]
  | .arr (.cons hd tl) => 91 :: (stringifyJson hd ++ stringifyElemsTail tl)
  | .obj .nil => [123, 125]
  | .obj (.cons k v tl) =>
      123 :: (strLit k ++ (58 :: (stringifyJson v ++ stringifyMembersTail tl)))

/-- Serialization of the remaining elements of a non-empty array,
*including* the closing `]`. -/
def stringifyElemsTail : JsonArr → List Nat
  | .nil => [93]
  | .cons hd tl => 44 :: (stringifyJson hd ++ stringifyElemsTail tl)

/-- Serialization of the remaining members of a non-empty object,
*including* the closing `}`. -/
def stringifyMembersTail : JsonObj → List Nat
  | .nil => [125]
  | .cons k v tl =>
      44 :: (strLit k ++ (58 :: (stringifyJson v ++ stringifyMembersTail tl)))

end

/-- Byte-string well-formedness: printable Latin-1 — the range on which
the escape model matches `JSON.stringify` and `btoa` accepts the text. -/
def byteStrOk (s : List Nat) : Bool := s.all (fun b => 32 ≤ b && b < 256)

mutual

/-- Well-formedness of a JSON value: every string byte is printable
Latin-1. -/
def wfJson : Json → Bool
  | .str s => byteStrOk s
  | .num _ => true
  | .arr es => wfArr es
  | .obj ms => wfObj ms

def wfArr : JsonArr → Bool
  | .nil => true
  | .cons hd tl => wfJson hd && wfArr tl

def wfObj : JsonObj → Bool
  | .nil => true
  | .cons k v tl => byteStrOk k && wfJson v && wfObj tl

end

def isDigitByte (b : Nat) : Bool := 48 ≤ b && b ≤ 57

/-- The body of a string literal: everything up to the next unescaped `"`,
undoing the two modelled escapes. -/
def parseStrAux : List Nat → Option (List Nat × List Nat)
  | [] => none
  | b :: rest =>
      if b = 34 then some ([], rest)
      else if b = 92 then
        match rest with
        | [] => none
        | c :: rest2 =>
            if c = 34 ∨ c = 92 then
              match parseStrAux rest2 with
              | some (s, r) => some (c :: s, r)
              | none => none
            else none
      else
        match parseStrAux rest with
        | some (s, r) => some (b :: s, r)
        | none => none

/-- Greedy digit run. -/
def parseNatAux : Nat → List Nat → Nat × List Nat
  | acc, [] => (acc, [])
  | acc, b :: t =>
      if isDigitByte b then parseNatAux (acc * 10 + (b - 48)) t else (acc, b :: t)

/-- What the recursive-descent parser is currently parsing. -/
inductive PMode where
  | value
  | elems
  | members

/-- Result of one parser step. -/
inductive PRes where
  | v (j : Json)
  | es (elems : JsonArr)
  | ms (fields : JsonObj)

/-- A fuel-indexed recursive-descent parser for the modelled JSON
fragment (the whitespace-free texts `JSON.stringify` emits); `.elems` and
`.members` parse the remainder of a non-empty array/object including the
closing bracket. -/
def parseF : Nat → PMode → List Nat → Option (PRes × List Nat)
  | 0, _, _ => none
  | fuel + 1, .value, l =>
      match l with
      | [] => none
      | b :: rest =>
          if b = 34 then
            match parseStrAux rest with
            | some (s, r) => some (.v (.str s), r)
            | none => none
          else if isDigitByte b then
            match parseNatAux 0 (b :: rest) with
            | (n, r) => some (.v (.num n), r)
          else if b = 91 then
            match rest with
            | [] => none
            | r0 :: r1 =>
                if r0 = 93 then some (.v (.arr .nil), r1)
                else
                  match parseF fuel .elems (r0 :: r1) with
                  | some (.es es, r) => some (.v (.arr es), r)
                  | _ => none
          else if b = 123 then
            match rest with
            | [] => none
            | r0 :: r1 =>
                if r0 = 125 then some (.v (.obj .nil), r1)
                else
                  match parseF fuel .members (r0 :: r1) with
                  | some (.ms ms, r) => some (.v (.obj ms), r)
                  | _ => none
          else none
  | fuel + 1, .elems, l =>
      match parseF fuel .value l with
      | some (.v j, r) =>
          (match r with
           | [] => none
           | r0 :: r1 =>
               if r0 = 44 then
                 match parseF fuel .elems r1 with
                 | some (.es es, r2) => some (.es (.cons j es), r2)
                 | _ => none
               else if r0 = 93 then some (.es (.cons j .nil), r1)
               else none)
      | _ => none
  | fuel + 1, .members, l =>
      match l with
      | [] => none
      | b :: rest =>
          if b = 34 then
            match parseStrAux rest with
            | some (k, r) =>
                (match r with
                 | [] => none
                 | r0 :: r1 =>
                     if r0 = 58 then
                       match parseF fuel .value r1 with
                       | some (.v v, r2) =>
                           (match r2 with
                            | [] => none
                            | r3 :: r4 =>
                                if r3 = 44 then
                                  match parseF fuel .members r4 with
                                  | some (.ms ms, r5) =>
                                      some (.ms (.cons k v ms), r5)
                                  | _ => none
                                else if r3 = 125 then
                                  some (.ms (.cons k v .nil), r4)
                                else none)
                       | _ => none
                     else none)
            | none => none
          else none

/-- `JSON.parse` on the modelled fragment: the whole text must be one
value. -/
def jsonParse (l : List Nat) : Option Json :=
  match parseF (l.length + 1) .value l with
  | some (.v j, []) => some j
  | _ => none

/-- `numBoundary rest` holds when the byte after a serialized number is not
a digit, so the greedy digit run stops exactly there. -/
def numBoundary : List Nat → Bool
  | [] => true
  | b :: _ => !isDigitByte b

/-! ## The x402 protocol codec (`config/x402.ts`) -/

/-- The byte string of an ASCII/Latin-1 Lean string literal. -/
def strB (s : String) : List Nat := s.toList.map Char.toNat

/-- The single offer `encodePaymentRequired` builds: scheme `"exact"`, the
given fields, `maxTimeoutSeconds` 300 — in the source's insertion order. -/
def offerJson (payTo amount network resource asset : List Nat) : Json :=
  .obj (.cons (strB "scheme") (.str (strB "exact"))
    (.cons (strB "network") (.str network)
      (.cons (strB "maxAmountRequired") (.str amount)
        (.cons (strB "resource") (.str resource)
          (.cons (strB "payTo") (.str payTo)
            (.cons (strB "maxTimeoutSeconds") (.num 300)
              (.cons (strB "asset") (.str asset) .nil)))))))

/-- The `PaymentRequired` header object: `x402Version: 1` and a
one-element `accepts` list. -/
def paymentRequiredJson (payTo amount network resource asset : List Nat) : Json :=
  .obj (.cons (strB "x402Version") (.num 1)
    (.cons (strB "accepts")
      (.arr (.cons (offerJson payTo amount network resource asset) .nil)) .nil))

/-- `encodePaymentRequired` (config/x402.ts lines 51-73):
`btoa(JSON.stringify(header))`. -/
def encodePaymentRequired (payTo amount network resource asset : List Nat) :
    List Nat :=
  btoaBytes (stringifyJson (paymentRequiredJson payTo amount network resource asset))

/-- `decodePaymentRequired` (config/x402.ts lines 75-81):
`JSON.parse(atob(encoded))` inside try/catch; the catch throws
`"Invalid Payment-Required header"`.  No envelope-shape validation is
performed — the parse result is returned as-is. -/
def decodePaymentRequired (encoded : List Nat) : Except (List Nat) Json :=
  match atobBytes encoded with
  | none => .error (strB "Invalid Payment-Required header")
  | some bytes =>
      match jsonParse bytes with
      | none => .error (strB "Invalid Payment-Required header")
      | some j => .ok j

/-- The `authorization` record `createPaymentPayload` builds:
`validAfter = "0"`, `validBefore = floor(nowMs/1000 + 300).toString()`. -/
def authorizationJson (fromA toA value nonce : List Nat) (nowMs : Nat) : Json :=
  .obj (.cons (strB "from") (.str fromA)
    (.cons (strB "to") (.str toA)
      (.cons (strB "value") (.str value)
        (.cons (strB "validAfter") (.str (strB "0"))
          (.cons (strB "validBefore") (.str (natDigits (nowMs / 1000 + 300)))
            (.cons (strB "nonce") (.str nonce) .nil))))))

/-- The `PaymentPayload` object of `createPaymentPayload`
(config/x402.ts lines 83-108). -/
def paymentPayloadJson (network signature fromA toA value nonce : List Nat)
    (nowMs : Nat) : Json :=
  .obj (.cons (strB "x402Version") (.num 1)
    (.cons (strB "scheme") (.str (strB "exact"))
      (.cons (strB "network") (.str network)
        (.cons (strB "payload")
          (.obj (.cons (strB "signature") (.str signature)
            (.cons (strB "authorization")
              (authorizationJson fromA toA value nonce nowMs) .nil)))
          .nil))))

/-- `createPaymentPayload`: `btoa(JSON.stringify(payload))`. -/
def createPaymentPayload (network signature fromA toA value nonce : List Nat)
    (nowMs : Nat) : List Nat :=
  btoaBytes (stringifyJson
    (paymentPayloadJson network signature fromA toA value nonce nowMs))

/-- `decodePaymentPayload` (src/unnamed/part_016 lines 355-361): identical
to `decodePaymentRequired` except for the thrown message. -/
def decodePaymentPayload (encoded : List Nat) : Except (List Nat) Json :=
  match atobBytes encoded with
  | none => .error (strB "Invalid x402 payment payload")
  | some bytes =>
      match jsonParse bytes with
      | none => .error (strB "Invalid x402 payment payload")
      | some j => .ok j

/-- Member lookup on a JSON object. -/
def jLookupObj : JsonObj → List Nat → Option Json
  | .nil, _ => none
  | .cons key v tl, k => if key = k then some v else jLookupObj tl k

def jLookup : Json → List Nat → Option Json
  | .obj ms, k => jLookupObj ms k
  | _, _ => none

/-- Modelled from the spec (§3/§4.1): one accepted offer of the
`PaymentRequired` envelope — scheme, network, amount, resource, payee,
timeout and asset all present with the right kinds.  This spec-side
predicate does not appear in the source; the decoder is compared against
it. -/
def isOfferShape (j : Json) : Bool :=
  (match jLookup j (strB "scheme") with | some (.str _) => true | _ => false) &&
  (match jLookup j (strB "network") with | some (.str _) => true | _ => false) &&
  (match jLookup j (strB "maxAmountRequired") with
    | some (.str _) => true | _ => false) &&
  (match jLookup j (strB "resource") with | some (.str _) => true | _ => false) &&
  (match jLookup j (strB "payTo") with | some (.str _) => true | _ => false) &&
  (match jLookup j (strB "maxTimeoutSeconds") with
    | some (.num _) => true | _ => false) &&
  (match jLookup j (strB "asset") with | some (.str _) => true | _ => false)

def allOffersShape : JsonArr → Bool
  | .nil => true
  | .cons hd tl => isOfferShape hd && allOffersShape tl

/-- Modelled from the spec: the `PaymentRequired` envelope shape —
a protocol version number and a list of accepted offers. -/
def isPaymentRequiredShape (j : Json) : Bool :=
  (match jLookup j (strB "x402Version") with | some (.num _) => true | _ => false) &&
  (match jLookup j (strB "accepts") with
    | some (.arr es) => allOffersShape es | _ => false)

/-! ## Theorems -/

theorem verifySolana_success_eq (s : DBState) (pid tx addr : String)
    (now : Nat) (product : Product)
    (hfind : getProductByIdInternal s pid = some product)
    (hact : product.is_active = true)
    (hsold : PaymentService.soldOut product = false)
    (hfresh : getPurchaseByTxHash s tx = none)
    (hid : s.purchases.any (fun q => q.id == tx ++ "_" ++ toString now) = false) :
    PaymentService.verifyPayment s pid tx addr now =
      (.ok (tx, product.target_url), solanaSettled s pid tx addr now product) := by
  have hfind' : s.products.find? (fun p => p.id == pid) = some product := hfind
  have hfresh' : s.purchases.find? (fun p => p.tx_hash == tx) = none := hfresh
  simp only [PaymentService.verifyPayment, getProductByIdInternal,
    getPurchaseByTxHash, hfind', hact, hsold, hfresh', addPurchase, hid,
    Bool.false_eq_true, if_false, Bool.not_true,
    updateProductSales, updateProfileEarnings, solanaSettled, solanaPurchase]
  simp [hfind']

theorem verifySolana_error_state (s s2 : DBState) (pid tx addr : String)
    (now : Nat) (e : String)
    (h : PaymentService.verifyPayment s pid tx addr now = (.error e, s2)) :
    s2 = s := by
  unfold PaymentService.verifyPayment at h
  repeat' split at h
  all_goals simp_all

theorem updateProductSales_purchases (s : DBState) (id : String) :
    (updateProductSales s id).purchases = s.purchases := by
  unfold updateProductSales; split <;> rfl

theorem updateProductSales_profiles (s : DBState) (id : String) :
    (updateProductSales s id).profiles = s.profiles := by
  unfold updateProductSales; split <;> rfl

theorem updateProfileEarnings_purchases (s : DBState) (a : String) (m : Rat) :
    (updateProfileEarnings s a m).purchases = s.purchases := rfl

theorem addPurchase_ok_eq (s s1 : DBState) (p : Purchase)
    (h : addPurchase s p = .ok s1) :
    s1 = { s with purchases := p :: s.purchases } := by
  unfold addPurchase at h
  split at h
  · simp at h
  · split at h
    · simp at h
    · exact ((Except.ok.injEq ..).mp h).symm

theorem find?_id_isSome_of_active (l : List Product) (pid : String)
    (product : Product)
    (h : l.find? (fun p => p.id == pid && p.is_active) = some product) :
    ∃ w, l.find? (fun p => p.id == pid) = some w := by
  cases heq : l.find? (fun p => p.id == pid) with
  | some w => exact ⟨w, rfl⟩
  | none =>
      have hmem := List.mem_of_find?_eq_some h
      have hprop := List.find?_some h
      have hnone := List.find?_eq_none.mp heq
      simp only [Bool.and_eq_true] at hprop
      exact absurd hprop.1 (by simpa using hnone _ hmem)

theorem verifyX402_success_eq (s : DBState) (pid : String)
    (v : Nat) (sch net sig : String) (auth : X402Authorization)
    (addr : String) (now : Nat) (product : Product)
    (hfind : getProductById s pid = some product)
    (hnet : (String.toList "eip155:8453").isPrefixOf net.toList = true)
    (hid : s.purchases.any
      (fun q => q.id == deriveTxHash sig ++ "_" ++ toString now) = false) :
    X402Service.verifyPayment s pid ⟨v, sch, net, ⟨sig, auth⟩⟩ addr now =
      (.ok (deriveTxHash sig, product.target_url),
       { products := s.products.map (fun p =>
           if p.id == pid then { p with sold_count := p.sold_count + 1 } else p)
         purchases := x402Purchase pid sig addr now product.price :: s.purchases
         profiles := s.profiles }) := by
  obtain ⟨w, hw⟩ := find?_id_isSome_of_active s.products pid product hfind
  have hfind' : s.products.find? (fun p => p.id == pid && p.is_active) =
      some product := hfind
  simp only [X402Service.verifyPayment, getProductById, getProductByIdInternal,
    hfind', hnet, if_true, addPurchase, hid, Bool.false_eq_true, if_false,
    updateProductSales, x402Purchase]
  simp [hw]

/-! ## C1 — replay rejection -/

/-- **C1 counterexample.**  The EVM-path `X402Service.verifyPayment`
performs no replay check: two calls whose proofs carry the same signature —
hence the same derived on-chain reference — both succeed, and the ledger
ends up with two purchase rows for that reference.  This falsifies the
claim that for every pair of `verifyPayment` calls with the same reference
at most the first succeeds and later ones fail with `ReplayError`. -/
theorem c1_counterexample :
    (X402Service.verifyPayment exState "p1" exPayload "bob" 7).1 =
      .ok (deriveTxHash "0xabc", "https://example.com/a") ∧
    (X402Service.verifyPayment
        (X402Service.verifyPayment exState "p1" exPayload "bob" 7).2
        "p1" exPayload "carol" 9).1 =
      .ok (deriveTxHash "0xabc", "https://example.com/a") ∧
    ((X402Service.verifyPayment
        (X402Service.verifyPayment exState "p1" exPayload "bob" 7).2
        "p1" exPayload "carol" 9).2.purchases.countP
      (fun q => q.tx_hash == deriveTxHash "0xabc")) = 2 := by
  decide

/-- **C1 (amended).**  Replay rejection holds on the Solana path
(`PaymentService.verifyPayment`): (a) once a reference is recorded, any
later call with that reference fails and leaves the ledger unchanged;
(b) when the product checks pass (product exists, is active, not sold out)
the failure is specifically the replay error; (c) a successful call records
its reference, so at most one call per reference ever succeeds.  (The EVM
`X402Service` has no such guard — see the counterexample.) -/
theorem c1_replay_rejection_solana :
    (∀ s pid tx addr now, (getPurchaseByTxHash s tx).isSome = true →
        ∃ e, PaymentService.verifyPayment s pid tx addr now = (.error e, s)) ∧
    (∀ s pid tx addr now product,
        getProductByIdInternal s pid = some product →
        product.is_active = true →
        PaymentService.soldOut product = false →
        (getPurchaseByTxHash s tx).isSome = true →
        PaymentService.verifyPayment s pid tx addr now =
          (.error "This transaction has already been processed", s)) ∧
    (∀ s pid tx addr now r s2,
        PaymentService.verifyPayment s pid tx addr now = (.ok r, s2) →
        (getPurchaseByTxHash s2 tx).isSome = true) := by
  refine ⟨?_, ?_, ?_⟩
  · intro s pid tx addr now hrec
    obtain ⟨q, hq⟩ := Option.isSome_iff_exists.mp hrec
    unfold PaymentService.verifyPayment
    cases hf : getProductByIdInternal s pid with
    | none => exact ⟨"Product not found", rfl⟩
    | some product =>
        cases hact : product.is_active with
        | false => exact ⟨"Product is not active", by simp [hact]⟩
        | true =>
            cases hsold : PaymentService.soldOut product with
            | true => exact ⟨"Product is sold out", by simp [hact, hsold]⟩
            | false =>
                exact ⟨"This transaction has already been processed",
                  by simp [hact, hsold, hq]⟩
  · intro s pid tx addr now product hf hact hsold hrec
    obtain ⟨q, hq⟩ := Option.isSome_iff_exists.mp hrec
    unfold PaymentService.verifyPayment
    simp [hf, hact, hsold, hq]
  · intro s pid tx addr now r r2 h
    unfold PaymentService.verifyPayment at h
    cases hf : getProductByIdInternal s pid with
    | none => rw [hf] at h; simp at h
    | some product =>
        rw [hf] at h
        cases hact : product.is_active with
        | false => simp [hact] at h
        | true =>
            simp only [hact, Bool.not_true, Bool.false_eq_true, if_false] at h
            cases hsold : PaymentService.soldOut product with
            | true => simp [hsold] at h
            | false =>
                simp only [hsold, Bool.false_eq_true, if_false] at h
                cases hrep : getPurchaseByTxHash s tx with
                | some q => rw [hrep] at h; simp at h
                | none =>
                    rw [hrep] at h
                    cases hadd : addPurchase s
                        { id := tx ++ "_" ++ toString now, product_id := pid
                          buyer_address := addr, tx_hash := tx
                          network := "solana", amount := product.price } with
                    | error e => rw [hadd] at h; simp at h
                    | ok s1 =>
                        rw [hadd] at h
                        simp only [Prod.mk.injEq, Except.ok.injEq] at h
                        obtain ⟨-, rfl⟩ := h
                        have hpur : s1.purchases =
                            { id := tx ++ "_" ++ toString now, product_id := pid
                              buyer_address := addr, tx_hash := tx
                              network := "solana", amount := product.price }
                              :: s.purchases := by
                          rw [addPurchase_ok_eq _ _ _ hadd]
                        unfold getPurchaseByTxHash
                        rw [updateProfileEarnings_purchases,
                          updateProductSales_purchases, hpur]
                        simp

/-- **C1 witness.**  The amended replay theorem applied at a concrete
state in which `"SIGA"` has already settled. -/
theorem c1_witness :
    PaymentService.verifyPayment exStateReplayed "p1" "SIGA" "carol" 9 =
      (.error "This transaction has already been processed", exStateReplayed) :=
  c1_replay_rejection_solana.2.1 exStateReplayed "p1" "SIGA" "carol" 9
    exProduct (by decide) (by decide) (by decide) (by decide)

/-! ## C2 — the three settlement effects -/

/-- **C2 counterexample.**  A successful `X402Service.verifyPayment` call
does not credit the creator's earnings: on a ledger whose only profile row
is `alice` with `total_earned = 0`, the EVM verification succeeds for
alice's product (price 10) yet leaves `total_earned` at 0.  This falsifies
the claim that every successful `verifyPayment` call applies all three
effects. -/
theorem c2_counterexample :
    (X402Service.verifyPayment exState "p1" exPayload "bob" 7).1 =
      .ok (deriveTxHash "0xabc", "https://example.com/a") ∧
    (X402Service.verifyPayment exState "p1" exPayload "bob" 7).2.profiles =
      [{ address := "alice", total_earned := 0 }] ∧
    exProduct.price ≠ 0 := by
  decide

/-- **C2 (amended).**  (a) A successful Solana-path call applies exactly the
three effects — the state afterwards is literally `solanaSettled`: one new
purchase row (amount = price), the product's `sold_count` bumped by one,
and `total_earned + price` on the creator's profile rows; (b) any failing
Solana-path call leaves the database unchanged; (c) the EVM
`X402Service` never touches the profiles table, so it applies only the
first two effects. -/
theorem c2_settlement_effects :
    (∀ s pid tx addr now product,
        getProductByIdInternal s pid = some product →
        product.is_active = true →
        PaymentService.soldOut product = false →
        getPurchaseByTxHash s tx = none →
        (s.purchases.any (fun q => q.id == tx ++ "_" ++ toString now)) = false →
        PaymentService.verifyPayment s pid tx addr now =
          (.ok (tx, product.target_url), solanaSettled s pid tx addr now product)) ∧
    (∀ s s2 pid tx addr now e,
        PaymentService.verifyPayment s pid tx addr now = (.error e, s2) →
        s2 = s) ∧
    (∀ s pid payload addr now r s2,
        X402Service.verifyPayment s pid payload addr now = (.ok r, s2) →
        s2.profiles = s.profiles) := by
  refine ⟨verifySolana_success_eq, verifySolana_error_state, ?_⟩
  intro s pid payload addr now r s2 h
  unfold X402Service.verifyPayment at h
  cases hf : getProductById s pid with
  | none => rw [hf] at h; simp at h
  | some product =>
      rw [hf] at h
      dsimp only at h
      cases hadd : addPurchase s
          { id := deriveTxHash payload.payload.signature ++ "_" ++ toString now
            product_id := pid, buyer_address := addr
            tx_hash := deriveTxHash payload.payload.signature
            network := if (String.toList "eip155:8453").isPrefixOf
              payload.network.toList then "base" else "baseSepolia"
            amount := product.price } with
      | error e => rw [hadd] at h; simp at h
      | ok s1 =>
          rw [hadd] at h
          simp only [Prod.mk.injEq, Except.ok.injEq] at h
          obtain ⟨-, rfl⟩ := h
          rw [updateProductSales_profiles]
          rw [addPurchase_ok_eq _ _ _ hadd]

/-- **C2 witness.**  The amended effects theorem at a concrete state:
one fresh settlement of `exProduct` by `bob`. -/
theorem c2_witness :
    PaymentService.verifyPayment exState "p1" "SIGA" "bob" 5 =
      (.ok ("SIGA", "https://example.com/a"),
       solanaSettled exState "p1" "SIGA" "bob" 5 exProduct) :=
  c2_settlement_effects.1 exState "p1" "SIGA" "bob" 5 exProduct
    (by decide) (by decide) (by decide) (by decide) (by decide)

/-! ## C3 — inactive products vs absent products -/

/-- **C3 counterexample.**  The EVM `X402Service.verifyPayment` looks the
product up with the active-only query, so an existing-but-inactive product
is reported with the absent-product error `"Product not found"` rather than
the distinct inactive-product error — falsifying the claim for that
service. -/
theorem c3_counterexample :
    X402Service.verifyPayment exStateInactive "p2" exPayload "bob" 7 =
      (.error "Product not found", exStateInactive) := by
  decide

/-- **C3 (amended).**  The Solana-path `PaymentService.verifyPayment` looks
the product up including inactive listings: an absent product fails with
`"Product not found"`, an existing-but-inactive product fails with the
distinct `"Product is not active"`, and both failures record nothing.  (The
EVM `X402Service` reports inactive products as absent — see the
counterexample.) -/
theorem c3_inactive_unavailable_solana :
    (∀ s pid tx addr now,
        getProductByIdInternal s pid = none →
        PaymentService.verifyPayment s pid tx addr now =
          (.error "Product not found", s)) ∧
    (∀ s pid tx addr now product,
        getProductByIdInternal s pid = some product →
        product.is_active = false →
        PaymentService.verifyPayment s pid tx addr now =
          (.error "Product is not active", s)) ∧
    ("Product is not active" ≠ ("Product not found" : String)) := by
  refine ⟨?_, ?_, by decide⟩
  · intro s pid tx addr now hf
    unfold PaymentService.verifyPayment
    rw [hf]
  · intro s pid tx addr now product hf hact
    unfold PaymentService.verifyPayment
    rw [hf]
    simp [hact]

/-- **C3 witness.**  The amended theorem at a concrete state holding only a
deactivated product. -/
theorem c3_witness :
    PaymentService.verifyPayment exStateInactive "p2" "SIGA" "bob" 7 =
      (.error "Product is not active", exStateInactive) :=
  c3_inactive_unavailable_solana.2.1 exStateInactive "p2" "SIGA" "bob" 7
    exInactiveProduct (by decide) (by decide)

/-! ## C4 — the quantity cap -/

/-- **C4 counterexample.**  The cap check is skipped whenever
`max_quantity ≤ 0`: for a product with `max_quantity = 0` and
`sold_count = 3` (so `sold_count ≥ max_quantity` holds and the claim
demands `SoldOutError`), a fresh verification call succeeds. -/
theorem c4_counterexample :
    exCapZeroProduct.max_quantity = some 0 ∧
    (0 : Int) ≤ (exCapZeroProduct.sold_count : Int) ∧
    (PaymentService.verifyPayment exStateCapZero "p0" "SIGF" "bob" 7).1 =
      .ok ("SIGF", "https://example.com/c") := by
  decide

/-- **C4 (amended).**  For a product whose `max_quantity` is set *and
positive*, a fresh valid verification fails with `"Product is sold out"`
exactly when `sold_count ≥ max_quantity`; otherwise (in particular whenever
`max_quantity ≤ 0`, when the check is skipped) the call passes the check
and succeeds. -/
theorem c4_soldout_gate :
    (∀ s pid tx addr now product m,
        getProductByIdInternal s pid = some product →
        product.is_active = true →
        product.max_quantity = some m →
        0 < m → m ≤ (product.sold_count : Int) →
        PaymentService.verifyPayment s pid tx addr now =
          (.error "Product is sold out", s)) ∧
    (∀ s pid tx addr now product m,
        getProductByIdInternal s pid = some product →
        product.is_active = true →
        product.max_quantity = some m →
        ¬(0 < m ∧ m ≤ (product.sold_count : Int)) →
        getPurchaseByTxHash s tx = none →
        (s.purchases.any (fun q => q.id == tx ++ "_" ++ toString now)) = false →
        (PaymentService.verifyPayment s pid tx addr now).1 =
          .ok (tx, product.target_url)) := by
  constructor
  · intro s pid tx addr now product m hf hact hmq hpos hge
    have hsold : PaymentService.soldOut product = true := by
      unfold PaymentService.soldOut
      rw [hmq]
      simp [hpos, hge]
    unfold PaymentService.verifyPayment
    rw [hf]
    simp [hact, hsold]
  · intro s pid tx addr now product m hf hact hmq hnot hfresh hid
    have hsold : PaymentService.soldOut product = false := by
      unfold PaymentService.soldOut
      rw [hmq]
      simpa [Decidable.not_and_iff_or_not] using hnot
    rw [verifySolana_success_eq s pid tx addr now product hf hact hsold hfresh hid]

/-- **C4 witness.**  The amended cap theorem at a concrete sold-out state
(`max_quantity = 1`, `sold_count = 1`). -/
theorem c4_witness :
    PaymentService.verifyPayment exStateSoldOut "p3" "SIGA" "bob" 7 =
      (.error "Product is sold out", exStateSoldOut) :=
  c4_soldout_gate.1 exStateSoldOut "p3" "SIGA" "bob" 7 exSoldOutProduct 1
    (by decide) (by decide) (by decide) (by decide) (by decide)

/-! ## C10 — amounts come from the stored price; proof contents unchecked -/

/-- **C10 counterexample.**  Two EVM proofs that differ *only* in the
signature string do not settle identically: the ledger derives the recorded
transaction reference from the signature bytes, so the two successful calls
return different references and record purchases with different
`tx_hash`es.  (Both still settle at the stored price without any
validation of the signature.) -/
theorem c10_counterexample :
    exPayload.payload.authorization = exPayloadSigB.payload.authorization ∧
    exPayload.network = exPayloadSigB.network ∧
    exPayload.payload.signature ≠ exPayloadSigB.payload.signature ∧
    (X402Service.verifyPayment exState "p1" exPayload "bob" 7).1 =
      .ok (deriveTxHash "0xabc", "https://example.com/a") ∧
    (X402Service.verifyPayment exState "p1" exPayloadSigB "bob" 7).1 =
      .ok (deriveTxHash "0xdef", "https://example.com/a") ∧
    (X402Service.verifyPayment exState "p1" exPayload "bob" 7).1 ≠
      (X402Service.verifyPayment exState "p1" exPayloadSigB "bob" 7).1 := by
  decide

/-- **C10 (amended).**  (a) The EVM ledger never reads the authorization
record: two payloads differing only in `value`, validity window or nonce
verify to literally the same result and state; (b) a successful EVM
verification records a purchase whose amount is the product's stored price
and whose reference is derived from the signature; (c) a successful Solana
verification records the stored price and credits exactly that price to
the creator's profile rows. -/
theorem c10_amounts_and_proof_contents :
    (∀ s pid addr now v sch net sig auth auth2,
        X402Service.verifyPayment s pid ⟨v, sch, net, ⟨sig, auth⟩⟩ addr now =
          X402Service.verifyPayment s pid ⟨v, sch, net, ⟨sig, auth2⟩⟩ addr now) ∧
    (∀ s pid payload addr now product r s2,
        getProductById s pid = some product →
        X402Service.verifyPayment s pid payload addr now = (.ok r, s2) →
        ∃ q, s2.purchases = q :: s.purchases ∧ q.amount = product.price ∧
          q.tx_hash = deriveTxHash payload.payload.signature) ∧
    (∀ s pid tx addr now product,
        getProductByIdInternal s pid = some product →
        product.is_active = true →
        PaymentService.soldOut product = false →
        getPurchaseByTxHash s tx = none →
        (s.purchases.any (fun q => q.id == tx ++ "_" ++ toString now)) = false →
        (PaymentService.verifyPayment s pid tx addr now).2.purchases =
            solanaPurchase pid tx addr now product.price :: s.purchases ∧
          (PaymentService.verifyPayment s pid tx addr now).2.profiles =
            s.profiles.map (fun pr =>
              if pr.address == product.creator_address then
                { pr with total_earned := pr.total_earned + product.price }
              else pr)) := by
  refine ⟨fun s pid addr now v sch net sig auth auth2 => rfl, ?_, ?_⟩
  · intro s pid payload addr now product r s2 hf h
    unfold X402Service.verifyPayment at h
    rw [hf] at h
    dsimp only at h
    cases hadd : addPurchase s
        { id := deriveTxHash payload.payload.signature ++ "_" ++ toString now
          product_id := pid, buyer_address := addr
          tx_hash := deriveTxHash payload.payload.signature
          network := if (String.toList "eip155:8453").isPrefixOf
            payload.network.toList then "base" else "baseSepolia"
          amount := product.price } with
    | error e => rw [hadd] at h; simp at h
    | ok s1 =>
        rw [hadd] at h
        simp only [Prod.mk.injEq, Except.ok.injEq] at h
        obtain ⟨-, rfl⟩ := h
        refine ⟨{
            id := deriveTxHash payload.payload.signature ++ "_" ++ toString now,
            product_id := pid,
            buyer_address := addr,
            tx_hash := deriveTxHash payload.payload.signature,
            network := if (String.toList "eip155:8453").isPrefixOf payload.network.toList then "base" else "baseSepolia",
            amount := product.price }, ?_, rfl, rfl⟩
        rw [updateProductSales_purchases, addPurchase_ok_eq _ _ _ hadd]
  · intro s pid tx addr now product hf hact hsold hfresh hid
    rw [verifySolana_success_eq s pid tx addr now product hf hact hsold hfresh hid]
    exact ⟨rfl, rfl⟩

/-- **C10 witness.**  The amended theorem's Solana conjunct at a concrete
fresh settlement. -/
theorem c10_witness :
    (PaymentService.verifyPayment exState "p1" "SIGA" "bob" 5).2.purchases =
        solanaPurchase "p1" "SIGA" "bob" 5 exProduct.price :: exState.purchases ∧
      (PaymentService.verifyPayment exState "p1" "SIGA" "bob" 5).2.profiles =
        exState.profiles.map (fun pr =>
          if pr.address == exProduct.creator_address then
            { pr with total_earned := pr.total_earned + exProduct.price }
          else pr) :=
  c10_amounts_and_proof_contents.2.2 exState "p1" "SIGA" "bob" 5 exProduct
    (by decide) (by decide) (by decide) (by decide) (by decide)

/-! ## C5 — RPC fallback classification -/

/-- **C5 counterexample.**  `TokenAccountNotFoundError` is not
RPC-classified, yet it is *not* surfaced to the caller: the flow recovers
by adding an account-creation instruction and completes.  This falsifies
the claim's clause that every error not classified as RPC-flaky is
surfaced immediately. -/
theorem c5_counterexample :
    isRpcError .tokenAccountNotFound = false ∧
    useSolanaPayment.pay true .idle (.err .tokenAccountNotFound) .ok =
      { status := .success, usedFallback := false, createdAta := true
        errorMsg := "" } := by
  decide

/-- **C5 (amended).**  (a) When the primary recipient-account fetch fails
with an RPC-classified error and the fallback succeeds, `pay` completes via
the fallback endpoint without surfacing an error; (b) a primary error that
is neither RPC-classified nor `TokenAccountNotFoundError` is surfaced
immediately — the fallback endpoint is never consulted; (c) a
`TokenAccountNotFoundError` is also not surfaced: the flow continues with
an ATA-creation instruction. -/
theorem c5_rpc_fallback :
    (∀ st e, isRpcError e = true →
        useSolanaPayment.pay true st (.err e) .ok =
          { status := .success, usedFallback := true, createdAta := false
            errorMsg := "" }) ∧
    (∀ st m fb fb2, isRpcError (.other m) = false →
        useSolanaPayment.pay true st (.err (.other m)) fb =
            useSolanaPayment.pay true st (.err (.other m)) fb2 ∧
          (useSolanaPayment.pay true st (.err (.other m)) fb).status =
            .error ∧
          (useSolanaPayment.pay true st (.err (.other m)) fb).errorMsg =
            solanaCatchMessage (.other m)) ∧
    (∀ st fb,
        (useSolanaPayment.pay true st (.err .tokenAccountNotFound) fb).status =
            .success ∧
          (useSolanaPayment.pay true st
            (.err .tokenAccountNotFound) fb).createdAta = true) := by
  have htanf : isRpcError .tokenAccountNotFound = false := by decide
  refine ⟨?_, ?_, ?_⟩
  · intro st e h
    simp [useSolanaPayment.pay, useSolanaPayment.payEntry,
      fetchRecipientAccountStep, h]
  · intro st m fb fb2 h
    refine ⟨?_, ?_, ?_⟩ <;>
      simp [useSolanaPayment.pay, useSolanaPayment.payEntry,
        fetchRecipientAccountStep, h]
  · intro st fb
    refine ⟨?_, ?_⟩ <;>
      simp [useSolanaPayment.pay, useSolanaPayment.payEntry,
        fetchRecipientAccountStep, htanf]

/-- **C5 witness.**  The amended fallback theorem at a concrete
RPC-classified error (an HTTP 403 message). -/
theorem c5_witness :
    useSolanaPayment.pay true .idle (.err (.other "403 Access forbidden")) .ok =
      { status := .success, usedFallback := true, createdAta := false
        errorMsg := "" } :=
  c5_rpc_fallback.1 .idle (.other "403 Access forbidden") (by decide)

/-! ## C7 — `/api/pay/direct` validation -/

/-- **C7 counterexample.**  A request with *no* `network` field and a
`txHash` of 88 `'0'`s — which is not base58 — passes validation and
reaches the settlement step, falsifying both halves of the claim
(`network` need not equal `"solana"`, and the hash check accepts
non-base58 strings). -/
theorem c7_counterexample :
    payDirectRoute
        { productId := some "p1", txHash := some c7Tx, network := none
          buyerAddress := some "bob" } = .settles "p1" c7Tx "bob" ∧
    specSolanaSignatureShape c7Tx = false ∧
    (none : Option String) ≠ some "solana" := by
  decide

/-- **C7 (amended).**  A `POST /api/pay/direct` request reaches the
settlement step iff all three required fields are present and non-empty,
the `network` field is absent, empty, or `"solana"`, and the `txHash` is
exactly 88 alphanumeric characters (a strict superset of the base58
signature shape); otherwise it is rejected with HTTP 400 before
settlement. -/
theorem c7_validation_gate :
    ∀ b : DirectPayBody,
      (∃ p t a, payDirectRoute b = .settles p t a) ↔
        (falsyStr b.productId = false ∧ falsyStr b.txHash = false ∧
         falsyStr b.buyerAddress = false ∧
         (b.network = none ∨ b.network = some "" ∨ b.network = some "solana") ∧
         matchesTxHashRegex (b.txHash.getD "") = true) := by
  intro b
  unfold payDirectRoute
  split
  next h =>
    simp only [Bool.or_eq_true] at h
    constructor
    · rintro ⟨p, t, a, hx⟩
      simp at hx
    · rintro ⟨hp, ht, ha, -, -⟩
      rw [hp, ht, ha] at h
      simp at h
  next h =>
    simp only [Bool.or_eq_true, not_or, Bool.not_eq_true] at h
    obtain ⟨⟨hp, ht⟩, ha⟩ := h
    split
    next hn =>
      constructor
      · rintro ⟨p, t, a, hx⟩
        simp at hx
      · rintro ⟨-, -, -, hnet, -⟩
        rcases hnet with h2 | h2 | h2 <;> simp [h2, networkRejected] at hn
    next hn =>
      split
      next hr =>
        constructor
        · rintro ⟨p, t, a, hx⟩
          simp at hx
        · rintro ⟨-, -, -, -, hm⟩
          simp [hm] at hr
      next hr =>
        simp only [Bool.not_eq_true] at hn
        constructor
        · intro _
          refine ⟨hp, ht, ha, ?_, by simpa using hr⟩
          cases hx : b.network with
          | none => exact Or.inl rfl
          | some n =>
              right
              have hn2 := hn
              rw [hx] at hn2
              simp only [networkRejected, Bool.and_eq_false_iff,
                Bool.not_eq_false', beq_iff_eq] at hn2
              rcases hn2 with h2 | h2
              · exact Or.inl (by rw [h2])
              · exact Or.inr (by rw [h2])
        · intro _
          exact ⟨_, _, _, rfl⟩

/-! ## C9 — no in-flight guard in `pay()` -/

/-- **C9 evaluation.**  With a connected wallet, both orchestrators' `pay`
entries start the signing flow regardless of the current status — in
particular while an attempt is already `signing`, `submitting` or
`verifying`.  Nothing is rejected or queued: the code never reads the
status on entry, so a second concurrent flow runs to completion. -/
theorem c9_no_inflight_guard :
    (∀ st, useSolanaPayment.payEntry true st = .startsSigning) ∧
    (∀ st, useX402Payment.payEntry true st = .startsSigning) ∧
    (useSolanaPayment.pay true .signing .ok .ok).status = .success ∧
    (useSolanaPayment.pay true .verifying .ok .ok).status = .success := by
  exact ⟨fun _ => rfl, fun _ => rfl, rfl, rfl⟩

theorem b64Value_b64CharCode : ∀ n, n < 64 → b64Value (b64CharCode n) = some n := by
  decide

theorem b64CharCode_ne_61 : ∀ n, n < 64 → b64CharCode n ≠ 61 := by
  decide

/-- `atob` inverts `btoa` on genuine byte strings. -/
theorem atobBytes_btoaBytes :
    ∀ l : List Nat, (∀ b ∈ l, b < 256) → atobBytes (btoaBytes l) = some l
  | [], _ => rfl
  | [a], h => by
      have ha : a < 256 := h a (by simp)
      have h1 : a / 4 < 64 := by omega
      have h2 : a % 4 * 16 < 64 := by omega
      simp only [btoaBytes, atobBytes, b64Value_b64CharCode _ h1,
        b64Value_b64CharCode _ h2]
      simp
      omega
  | [a, b], h => by
      have ha : a < 256 := h a (by simp)
      have hb : b < 256 := h b (by simp)
      have h1 : a / 4 < 64 := by omega
      have h2 : a % 4 * 16 + b / 16 < 64 := by omega
      have h3 : b % 16 * 4 < 64 := by omega
      simp only [btoaBytes, atobBytes, b64Value_b64CharCode _ h1,
        b64Value_b64CharCode _ h2, b64Value_b64CharCode _ h3,
        if_neg (b64CharCode_ne_61 _ h3)]
      simp
      omega
  | a :: b :: c :: rest, h => by
      have ha : a < 256 := h a (by simp)
      have hb : b < 256 := h b (by simp)
      have hc : c < 256 := h c (by simp)
      have h1 : a / 4 < 64 := by omega
      have h2 : a % 4 * 16 + b / 16 < 64 := by omega
      have h3 : b % 16 * 4 + c / 64 < 64 := by omega
      have h4 : c % 64 < 64 := by omega
      have ih := atobBytes_btoaBytes rest (fun x hx => h x (by simp [hx]))
      simp only [btoaBytes, atobBytes, b64Value_b64CharCode _ h1,
        b64Value_b64CharCode _ h2, b64Value_b64CharCode _ h3,
        b64Value_b64CharCode _ h4, if_neg (b64CharCode_ne_61 _ h3),
        if_neg (b64CharCode_ne_61 _ h4), ih]
      simp
      omega

/-! ## Parser inversion lemmas -/

theorem natDigitsAux_acc :
    ∀ fuel n acc, natDigitsAux fuel n acc = natDigitsAux fuel n [] ++ acc := by
  intro fuel
  induction fuel with
  | zero => intro n acc; rfl
  | succ f ih =>
      intro n acc
      by_cases h : n < 10
      · simp [natDigitsAux, h]
      · simp only [natDigitsAux, if_neg h]
        rw [ih (n / 10) ((48 + n % 10) :: acc), ih (n / 10) [48 + n % 10]]
        simp

theorem natDigitsAux_fuel :
    ∀ f1 f2 n acc, n < f1 → n < f2 →
      natDigitsAux f1 n acc = natDigitsAux f2 n acc := by
  intro f1
  induction f1 with
  | zero => intro f2 n acc h1; omega
  | succ f ih =>
      intro f2 n acc h1 h2
      cases f2 with
      | zero => omega
      | succ g =>
          by_cases h : n < 10
          · simp [natDigitsAux, h]
          · simp only [natDigitsAux, if_neg h]
            exact ih g (n / 10) _ (by omega) (by omega)

theorem natDigits_eq (n : Nat) :
    natDigits n =
      if n < 10 then [48 + n] else natDigits (n / 10) ++ [48 + n % 10] := by
  by_cases h : n < 10
  · simp [natDigits, natDigitsAux, h]
  · simp only [if_neg h]
    show natDigitsAux (n + 1) n [] = _
    rw [show natDigitsAux (n + 1) n [] =
        natDigitsAux n (n / 10) [48 + n % 10] by simp [natDigitsAux, h]]
    rw [natDigitsAux_acc n (n / 10) [48 + n % 10]]
    rw [natDigitsAux_fuel n (n / 10 + 1) (n / 10) [] (by omega) (by omega)]
    rfl

theorem natDigits_mem_digit :
    ∀ n, ∀ b ∈ natDigits n, 48 ≤ b ∧ b ≤ 57 := by
  intro n
  induction n using Nat.strong_induction_on with
  | _ n ih =>
      rw [natDigits_eq]
      by_cases h : n < 10
      · simp only [if_pos h]
        intro b hb
        simp at hb
        omega
      · simp only [if_neg h]
        intro b hb
        rcases List.mem_append.mp hb with h2 | h2
        · exact ih (n / 10) (by omega) b h2
        · simp at h2
          omega

theorem natDigits_ne_nil (n : Nat) : natDigits n ≠ [] := by
  rw [natDigits_eq]
  by_cases h : n < 10 <;> simp [h]

theorem parseNatAux_digits :
    ∀ ds acc rest, (∀ b ∈ ds, isDigitByte b = true) → numBoundary rest = true →
      parseNatAux acc (ds ++ rest) =
        (List.foldl (fun a b => a * 10 + (b - 48)) acc ds, rest) := by
  intro ds
  induction ds with
  | nil =>
      intro acc rest hds hb
      cases rest with
      | nil => rfl
      | cons b t =>
          simp only [numBoundary, Bool.not_eq_true'] at hb
          simp [parseNatAux, hb]
  | cons d ds ih =>
      intro acc rest hds hb
      have hd : isDigitByte d = true := hds d (by simp)
      simp only [List.cons_append, parseNatAux, hd, if_true, List.append_eq]
      rw [ih _ rest (fun b hb2 => hds b (by simp [hb2])) hb]
      simp

theorem foldl_natDigits :
    ∀ n acc, List.foldl (fun a b => a * 10 + (b - 48)) acc (natDigits n) =
      acc * 10 ^ (natDigits n).length + n := by
  intro n
  induction n using Nat.strong_induction_on with
  | _ n ih =>
      intro acc
      rw [natDigits_eq]
      by_cases h : n < 10
      · rw [if_pos h]
        simp only [List.foldl_cons, List.foldl_nil, List.length_cons,
          List.length_nil, pow_one, zero_add]
        omega
      · simp only [if_neg h, List.foldl_append, List.length_append,
          List.length_singleton]
        rw [ih (n / 10) (by omega) acc]
        simp only [List.foldl_cons, List.foldl_nil]
        have h10 : 10 ^ ((natDigits (n / 10)).length + 1) =
            10 ^ (natDigits (n / 10)).length * 10 := by
          rw [pow_succ]
        rw [h10]
        have hmod : 48 + n % 10 - 48 = n % 10 := by omega
        rw [hmod]
        have := Nat.div_add_mod n 10
        have hring : (acc * 10 ^ (natDigits (n / 10)).length + n / 10) * 10 =
            acc * (10 ^ (natDigits (n / 10)).length * 10) + n / 10 * 10 := by
          ring
        omega

theorem parseNat_natDigits (n : Nat) (rest : List Nat)
    (hb : numBoundary rest = true) :
    parseNatAux 0 (natDigits n ++ rest) = (n, rest) := by
  rw [parseNatAux_digits (natDigits n) 0 rest
    (fun b hb2 => by
      have := natDigits_mem_digit n b hb2
      simp [isDigitByte]
      omega) hb]
  rw [foldl_natDigits]
  simp

theorem parseStrAux_escape :
    ∀ s rest, parseStrAux (jsonEscape s ++ (34 :: rest)) = some (s, rest) := by
  intro s
  induction s with
  | nil =>
      intro rest
      simp [jsonEscape, parseStrAux.eq_def]
  | cons b t ih =>
      intro rest
      by_cases h : b = 34 ∨ b = 92
      · simp only [jsonEscape, jsonEscapeByte, if_pos h, List.cons_append,
          List.nil_append, List.append_assoc]
        rw [parseStrAux.eq_def]
        simp [h, ih rest]
      · have hb34 : b ≠ 34 := fun hh => h (Or.inl hh)
        have hb92 : b ≠ 92 := fun hh => h (Or.inr hh)
        simp only [jsonEscape, jsonEscapeByte, if_neg h, List.cons_append,
          List.nil_append]
        rw [parseStrAux.eq_def]
        simp [hb34, hb92, ih rest]

/-- Every serialization is non-empty and starts with `"`, a digit, `[` or
`{`. -/
theorem stringify_head :
    ∀ j : Json, ∃ b t, stringifyJson j = b :: t ∧
      (b = 34 ∨ isDigitByte b = true ∨ b = 91 ∨ b = 123) := by
  intro j
  cases j with
  | str s => exact ⟨34, _, rfl, Or.inl rfl⟩
  | num n =>
      cases hd : natDigits n with
      | nil => exact absurd hd (natDigits_ne_nil n)
      | cons b t =>
          have hb := natDigits_mem_digit n b (by simp [hd])
          refine ⟨b, t, ?_, Or.inr (Or.inl ?_)⟩
          · simp [stringifyJson, hd]
          · simp [isDigitByte]
            omega
  | arr es =>
      cases es with
      | nil => exact ⟨91, _, rfl, Or.inr (Or.inr (Or.inl rfl))⟩
      | cons hd tl => exact ⟨91, _, rfl, Or.inr (Or.inr (Or.inl rfl))⟩
  | obj ms =>
      cases ms with
      | nil => exact ⟨123, _, rfl, Or.inr (Or.inr (Or.inr rfl))⟩
      | cons k v tl => exact ⟨123, _, rfl, Or.inr (Or.inr (Or.inr rfl))⟩

theorem stringify_length_pos (j : Json) : 1 ≤ (stringifyJson j).length := by
  obtain ⟨b, t, he, -⟩ := stringify_head j
  rw [he]
  simp

theorem stringifyElemsTail_length_pos (tl : JsonArr) :
    1 ≤ (stringifyElemsTail tl).length := by
  cases tl <;> simp [stringifyElemsTail]

theorem stringifyMembersTail_length_pos (tl : JsonObj) :
    1 ≤ (stringifyMembersTail tl).length := by
  cases tl <;> simp [stringifyMembersTail]

theorem strLit_length (k : List Nat) :
    (strLit k).length = (jsonEscape k).length + 2 := by
  simp [strLit]

/-- The inversion of the serializer by the parser, for every fuel bound
exceeding the serialized length: values, non-empty array tails and
non-empty object tails. -/
theorem parseF_stringify :
    ∀ fuel : Nat,
      (∀ j rest, numBoundary rest = true →
          (stringifyJson j).length < fuel →
          parseF fuel .value (stringifyJson j ++ rest) = some (.v j, rest)) ∧
      (∀ hd tl rest,
          (stringifyJson hd ++ stringifyElemsTail tl).length < fuel →
          parseF fuel .elems ((stringifyJson hd ++ stringifyElemsTail tl) ++ rest) =
            some (.es (.cons hd tl), rest)) ∧
      (∀ k v tl rest,
          (strLit k ++ (58 :: (stringifyJson v ++ stringifyMembersTail tl))).length
              < fuel →
          parseF fuel .members
              ((strLit k ++ (58 :: (stringifyJson v ++ stringifyMembersTail tl)))
                ++ rest) =
            some (.ms (.cons k v tl), rest)) := by
  intro fuel
  induction fuel with
  | zero =>
      refine ⟨?_, ?_, ?_⟩ <;> (intros; omega)
  | succ f ih =>
      obtain ⟨ihP, ihQ, ihR⟩ := ih
      refine ⟨?_, ?_, ?_⟩
      · -- value mode
        intro j rest hb hlen
        cases j with
        | str s =>
            simp only [stringifyJson, strLit, List.cons_append, List.append_assoc,
              List.singleton_append]
            simp [parseF, parseStrAux_escape s rest]
        | num n =>
            cases hnd : natDigits n with
            | nil => exact absurd hnd (natDigits_ne_nil n)
            | cons d ds =>
                have hdm := natDigits_mem_digit n d (by simp [hnd])
                have hdig : isDigitByte d = true := by
                  simp [isDigitByte]; omega
                have h34 : ¬(d = 34) := by omega
                have hcons : stringifyJson (.num n) ++ rest = d :: (ds ++ rest) := by
                  simp [stringifyJson, hnd]
                rw [hcons]
                simp only [parseF, if_neg h34, hdig, if_true]
                have hback : d :: (ds ++ rest) = natDigits n ++ rest := by
                  simp [hnd]
                rw [hback, parseNat_natDigits n rest hb]
        | arr es =>
            cases es with
            | nil =>
                have h0 : stringifyJson (.arr .nil) ++ rest = 91 :: 93 :: rest := rfl
                rw [h0]
                simp [parseF, isDigitByte]
            | cons hd tl =>
                have hlen2 : (stringifyJson hd ++ stringifyElemsTail tl).length < f := by
                  simp only [stringifyJson, List.length_cons] at hlen
                  omega
                obtain ⟨b0, t0, he0, hb0⟩ := stringify_head hd
                have hb93 : ¬(b0 = 93) := by
                  rcases hb0 with h | h | h | h
                  · omega
                  · simp [isDigitByte] at h; omega
                  · omega
                  · omega
                have hsplit : stringifyJson (.arr (.cons hd tl)) ++ rest =
                    91 :: (b0 :: (t0 ++ (stringifyElemsTail tl ++ rest))) := by
                  simp [stringifyJson, he0]
                rw [hsplit]
                simp only [parseF]
                norm_num [isDigitByte, hb93]
                have hQ := ihQ hd tl rest hlen2
                rw [he0] at hQ
                simp only [List.append_assoc, List.cons_append] at hQ
                rw [hQ]
        | obj ms =>
            cases ms with
            | nil =>
                have h0 : stringifyJson (.obj .nil) ++ rest = 123 :: 125 :: rest := rfl
                rw [h0]
                simp [parseF, isDigitByte]
            | cons k v tl =>
                have hlen2 : (strLit k ++
                    (58 :: (stringifyJson v ++ stringifyMembersTail tl))).length < f := by
                  simp only [stringifyJson, List.length_cons, List.length_append,
                    strLit_length] at hlen ⊢
                  omega
                have hsplit : stringifyJson (.obj (.cons k v tl)) ++ rest =
                    123 :: (34 :: (jsonEscape k ++
                      (34 :: (58 :: (stringifyJson v ++ (stringifyMembersTail tl ++ rest)))))) := by
                  simp [stringifyJson, strLit]
                rw [hsplit]
                simp only [parseF]
                norm_num [isDigitByte]
                have hR := ihR k v tl rest hlen2
                simp only [strLit, List.append_assoc, List.cons_append,
                  List.singleton_append, List.nil_append] at hR
                rw [hR]
      · -- elems mode
        intro hd tl rest hlen
        have hbnd : numBoundary (stringifyElemsTail tl ++ rest) = true := by
          cases tl <;> simp [stringifyElemsTail, numBoundary, isDigitByte]
        have hlenP : (stringifyJson hd).length < f := by
          have h1 := stringifyElemsTail_length_pos tl
          simp only [List.length_append] at hlen
          omega
        have hP := ihP hd (stringifyElemsTail tl ++ rest) hbnd hlenP
        rw [List.append_assoc]
        simp only [parseF, hP]
        cases tl with
        | nil =>
            simp [stringifyElemsTail]
        | cons hd2 tl2 =>
            have hlen2 : (stringifyJson hd2 ++ stringifyElemsTail tl2).length < f := by
              have h1 := stringify_length_pos hd
              simp only [List.length_append, stringifyElemsTail,
                List.length_cons] at hlen ⊢
              omega
            have hstep : stringifyElemsTail (.cons hd2 tl2) ++ rest =
                44 :: (stringifyJson hd2 ++ (stringifyElemsTail tl2 ++ rest)) := by
              simp [stringifyElemsTail]
            rw [hstep]
            norm_num
            have hQ := ihQ hd2 tl2 rest hlen2
            simp only [List.append_assoc] at hQ
            rw [hQ]
      · -- members mode
        intro k v tl rest hlen
        have hbnd : numBoundary (stringifyMembersTail tl ++ rest) = true := by
          cases tl <;> simp [stringifyMembersTail, numBoundary, isDigitByte]
        have hlenP : (stringifyJson v).length < f := by
          have h1 := stringifyMembersTail_length_pos tl
          simp only [List.length_append, strLit_length, List.length_cons] at hlen
          omega
        have hsplit : (strLit k ++
            (58 :: (stringifyJson v ++ stringifyMembersTail tl))) ++ rest =
            34 :: (jsonEscape k ++
              (34 :: (58 :: (stringifyJson v ++ (stringifyMembersTail tl ++ rest))))) := by
          simp [strLit]
        have hesc := parseStrAux_escape k
          (58 :: (stringifyJson v ++ (stringifyMembersTail tl ++ rest)))
        have hP := ihP v (stringifyMembersTail tl ++ rest) hbnd hlenP
        rw [hsplit]
        simp only [parseF, hesc, hP]
        norm_num [hP]
        cases tl with
        | nil =>
            simp [stringifyMembersTail]
        | cons k2 v2 tl2 =>
            have hlen2 : (strLit k2 ++
                (58 :: (stringifyJson v2 ++ stringifyMembersTail tl2))).length < f := by
              have h1 := stringify_length_pos v
              simp only [List.length_append, strLit_length, List.length_cons,
                stringifyMembersTail] at hlen ⊢
              omega
            have hstep : stringifyMembersTail (.cons k2 v2 tl2) ++ rest =
                44 :: ((strLit k2 ++
                  (58 :: (stringifyJson v2 ++ stringifyMembersTail tl2))) ++ rest) := by
              simp [stringifyMembersTail]
            rw [hstep]
            norm_num
            have hR := ihR k2 v2 tl2 rest hlen2
            simp only [strLit, List.append_assoc, List.cons_append,
              List.singleton_append, List.nil_append] at hR ⊢
            rw [hR]

/-- `JSON.parse` inverts `JSON.stringify` on the modelled fragment. -/
theorem jsonParse_stringify (j : Json) :
    jsonParse (stringifyJson j) = some j := by
  have h := (parseF_stringify ((stringifyJson j).length + 1)).1 j []
    rfl (by omega)
  unfold jsonParse
  rw [List.append_nil] at h
  rw [h]

/-! ## Byte-range facts for the serialized text -/

theorem jsonEscape_mem : ∀ s b, b ∈ jsonEscape s → b = 92 ∨ b ∈ s := by
  intro s
  induction s with
  | nil => simp [jsonEscape]
  | cons x t ih =>
      intro b hb
      simp only [jsonEscape, List.mem_append] at hb
      rcases hb with hb | hb
      · unfold jsonEscapeByte at hb
        by_cases hx : x = 34 ∨ x = 92
        · rw [if_pos hx] at hb
          simp at hb
          rcases hb with hb | hb
          · exact Or.inl hb
          · exact Or.inr (by simp [hb])
        · rw [if_neg hx] at hb
          simp at hb
          exact Or.inr (by simp [hb])
      · rcases ih b hb with h | h
        · exact Or.inl h
        · exact Or.inr (by simp [h])

theorem strLit_lt (k : List Nat) (hk : byteStrOk k = true) :
    ∀ b ∈ strLit k, b < 256 := by
  intro b hb
  simp only [strLit, List.mem_cons, List.mem_append, List.mem_singleton] at hb
  rcases hb with rfl | hb | hb
  · omega
  · rcases jsonEscape_mem k b hb with rfl | h
    · omega
    · have := List.all_eq_true.mp hk b h
      simp at this
      omega
  · simp at hb
    omega

theorem natDigits_lt (n : Nat) : ∀ b ∈ natDigits n, b < 256 := by
  intro b hb
  have := natDigits_mem_digit n b hb
  omega

mutual

theorem stringify_lt :
    ∀ j : Json, wfJson j = true → ∀ b ∈ stringifyJson j, b < 256
  | .str s, h => strLit_lt s h
  | .num n, _ => natDigits_lt n
  | .arr .nil, _ => by intro b hb; simp [stringifyJson] at hb; omega
  | .arr (.cons hd tl), h => by
      have h2 : wfJson hd = true ∧ wfArr tl = true := by
        simpa [wfJson, wfArr] using h
      intro b hb
      simp only [stringifyJson, List.mem_cons, List.mem_append] at hb
      rcases hb with rfl | hb | hb
      · omega
      · exact stringify_lt hd h2.1 b hb
      · exact elemsTail_lt tl h2.2 b hb
  | .obj .nil, _ => by intro b hb; simp [stringifyJson] at hb; omega
  | .obj (.cons k v tl), h => by
      have h2 : byteStrOk k = true ∧ wfJson v = true ∧ wfObj tl = true := by
        simpa [wfJson, wfObj, byteStrOk, and_assoc] using h
      intro b hb
      simp only [stringifyJson, List.mem_cons, List.mem_append] at hb
      rcases hb with rfl | hb | rfl | hb | hb
      · omega
      · exact strLit_lt k h2.1 b hb
      · omega
      · exact stringify_lt v h2.2.1 b hb
      · exact membersTail_lt tl h2.2.2 b hb

theorem elemsTail_lt :
    ∀ tl : JsonArr, wfArr tl = true → ∀ b ∈ stringifyElemsTail tl, b < 256
  | .nil, _ => by intro b hb; simp [stringifyElemsTail] at hb; omega
  | .cons hd tl, h => by
      have h2 : wfJson hd = true ∧ wfArr tl = true := by
        simpa [wfArr] using h
      intro b hb
      simp only [stringifyElemsTail, List.mem_cons, List.mem_append] at hb
      rcases hb with rfl | hb | hb
      · omega
      · exact stringify_lt hd h2.1 b hb
      · exact elemsTail_lt tl h2.2 b hb

theorem membersTail_lt :
    ∀ tl : JsonObj, wfObj tl = true → ∀ b ∈ stringifyMembersTail tl, b < 256
  | .nil, _ => by intro b hb; simp [stringifyMembersTail] at hb; omega
  | .cons k v tl, h => by
      have h2 : byteStrOk k = true ∧ wfJson v = true ∧ wfObj tl = true := by
        simpa [wfObj, byteStrOk, and_assoc] using h
      intro b hb
      simp only [stringifyMembersTail, List.mem_cons, List.mem_append] at hb
      rcases hb with rfl | hb | rfl | hb | hb
      · omega
      · exact strLit_lt k h2.1 b hb
      · omega
      · exact stringify_lt v h2.2.1 b hb
      · exact membersTail_lt tl h2.2.2 b hb

end

theorem natDigits_byteStrOk (n : Nat) : byteStrOk (natDigits n) = true := by
  rw [byteStrOk, List.all_eq_true]
  intro b hb
  have := natDigits_mem_digit n b hb
  simp
  omega

theorem decodeRequired_roundtrip (j : Json) (h : wfJson j = true) :
    decodePaymentRequired (btoaBytes (stringifyJson j)) = .ok j := by
  unfold decodePaymentRequired
  rw [atobBytes_btoaBytes _ (stringify_lt j h)]
  simp [jsonParse_stringify j]

theorem decodePayload_roundtrip (j : Json) (h : wfJson j = true) :
    decodePaymentPayload (btoaBytes (stringifyJson j)) = .ok j := by
  unfold decodePaymentPayload
  rw [atobBytes_btoaBytes _ (stringify_lt j h)]
  simp [jsonParse_stringify j]

theorem wf_paymentRequiredJson (payTo amount network resource asset : List Nat)
    (h1 : byteStrOk payTo = true) (h2 : byteStrOk amount = true)
    (h3 : byteStrOk network = true) (h4 : byteStrOk resource = true)
    (h5 : byteStrOk asset = true) :
    wfJson (paymentRequiredJson payTo amount network resource asset) = true := by
  simp [paymentRequiredJson, offerJson, wfJson, wfObj, wfArr,
    h1, h2, h3, h4, h5]
  decide

theorem wf_paymentPayloadJson (network signature fromA toA value nonce : List Nat)
    (nowMs : Nat)
    (h1 : byteStrOk network = true) (h2 : byteStrOk signature = true)
    (h3 : byteStrOk fromA = true) (h4 : byteStrOk toA = true)
    (h5 : byteStrOk value = true) (h6 : byteStrOk nonce = true) :
    wfJson (paymentPayloadJson network signature fromA toA value nonce nowMs) =
      true := by
  simp [paymentPayloadJson, authorizationJson, wfJson, wfObj, wfArr,
    h1, h2, h3, h4, h5, h6, natDigits_byteStrOk]
  decide

/-! ## C6 — codec round trip -/

/-- **C6 (confirmed).**  (a) For all (printable-Latin-1) argument strings,
decoding an encoded `PaymentRequired` header returns exactly the built
envelope: one offer with scheme `"exact"`, the given `payTo`/`network`/
`resource`/`asset`, `maxAmountRequired` equal to the amount, and
`maxTimeoutSeconds = 300`; (b) decoding a created `PaymentPayload`
likewise returns the built payload unchanged. -/
theorem c6_codec_roundtrip :
    (∀ payTo amount network resource asset : List Nat,
        byteStrOk payTo = true → byteStrOk amount = true →
        byteStrOk network = true → byteStrOk resource = true →
        byteStrOk asset = true →
        decodePaymentRequired
            (encodePaymentRequired payTo amount network resource asset) =
          .ok (paymentRequiredJson payTo amount network resource asset) ∧
        jLookup (paymentRequiredJson payTo amount network resource asset)
            (strB "accepts") =
          some (.arr (.cons (offerJson payTo amount network resource asset) .nil)) ∧
        jLookup (offerJson payTo amount network resource asset) (strB "scheme") =
          some (.str (strB "exact")) ∧
        jLookup (offerJson payTo amount network resource asset) (strB "payTo") =
          some (.str payTo) ∧
        jLookup (offerJson payTo amount network resource asset) (strB "network") =
          some (.str network) ∧
        jLookup (offerJson payTo amount network resource asset) (strB "resource") =
          some (.str resource) ∧
        jLookup (offerJson payTo amount network resource asset) (strB "asset") =
          some (.str asset) ∧
        jLookup (offerJson payTo amount network resource asset)
            (strB "maxAmountRequired") = some (.str amount) ∧
        jLookup (offerJson payTo amount network resource asset)
            (strB "maxTimeoutSeconds") = some (.num 300)) ∧
    (∀ network signature fromA toA value nonce : List Nat, ∀ nowMs : Nat,
        byteStrOk network = true → byteStrOk signature = true →
        byteStrOk fromA = true → byteStrOk toA = true →
        byteStrOk value = true → byteStrOk nonce = true →
        decodePaymentPayload
            (createPaymentPayload network signature fromA toA value nonce nowMs) =
          .ok (paymentPayloadJson network signature fromA toA value nonce nowMs)) := by
  constructor
  · intro payTo amount network resource asset h1 h2 h3 h4 h5
    refine ⟨decodeRequired_roundtrip _
      (wf_paymentRequiredJson payTo amount network resource asset h1 h2 h3 h4 h5),
      rfl, rfl, rfl, rfl, rfl, rfl, rfl, rfl⟩
  · intro network signature fromA toA value nonce nowMs h1 h2 h3 h4 h5 h6
    exact decodePayload_roundtrip _
      (wf_paymentPayloadJson network signature fromA toA value nonce nowMs
        h1 h2 h3 h4 h5 h6)

/-- **C6 witness.**  The round-trip theorem at the spec's own example:
`encodePaymentRequired("0xPAYEE", "9990000", "eip155:8453", "res-1",
"0xUSDC")`. -/
theorem c6_witness :
    decodePaymentRequired (encodePaymentRequired (strB "0xPAYEE")
        (strB "9990000") (strB "eip155:8453") (strB "res-1") (strB "0xUSDC")) =
      .ok (paymentRequiredJson (strB "0xPAYEE") (strB "9990000")
        (strB "eip155:8453") (strB "res-1") (strB "0xUSDC")) ∧
    jLookup (offerJson (strB "0xPAYEE") (strB "9990000") (strB "eip155:8453")
        (strB "res-1") (strB "0xUSDC")) (strB "maxAmountRequired") =
      some (.str (strB "9990000")) ∧
    jLookup (offerJson (strB "0xPAYEE") (strB "9990000") (strB "eip155:8453")
        (strB "res-1") (strB "0xUSDC")) (strB "maxTimeoutSeconds") =
      some (.num 300) := by
  obtain ⟨hdec, -, -, -, -, -, -, hamt, htimeout⟩ :=
    c6_codec_roundtrip.1 (strB "0xPAYEE") (strB "9990000") (strB "eip155:8453")
      (strB "res-1") (strB "0xUSDC") (by decide) (by decide) (by decide)
      (by decide) (by decide)
  exact ⟨hdec, hamt, htimeout⟩

/-! ## C8 — decode failure condition and absent shape validation -/

/-- **C8 counterexample.**  The decoder performs no envelope-shape check:
the base64 encoding of the JSON text `42` decodes without error to the
number 42, which does not match the `PaymentRequired` envelope shape.
This falsifies the "if and only if" as stated. -/
theorem c8_counterexample :
    decodePaymentRequired (btoaBytes (strB "42")) = .ok (.num 42) ∧
    isPaymentRequiredShape (.num 42) = false :=
  ⟨rfl, rfl⟩

/-- **C8 (amended).**  (a) Decoding succeeds on *every* well-formed JSON
value — envelope-shaped or not — returning it unchanged; (b)/(c) each
decoder fails with its `ProtocolError` message exactly when the input is
not base64, or base64-decodes to text that is not valid JSON (of the
modelled fragment). -/
theorem c8_decode_no_shape_check :
    (∀ j : Json, wfJson j = true →
        decodePaymentRequired (btoaBytes (stringifyJson j)) = .ok j ∧
        decodePaymentPayload (btoaBytes (stringifyJson j)) = .ok j) ∧
    (∀ l : List Nat,
        (∃ e, decodePaymentRequired l = .error e) ↔
          (atobBytes l = none ∨
            ∃ bs, atobBytes l = some bs ∧ jsonParse bs = none)) ∧
    (∀ l : List Nat,
        (∃ e, decodePaymentPayload l = .error e) ↔
          (atobBytes l = none ∨
            ∃ bs, atobBytes l = some bs ∧ jsonParse bs = none)) := by
  refine ⟨fun j h => ⟨decodeRequired_roundtrip j h, decodePayload_roundtrip j h⟩,
    ?_, ?_⟩
  · intro l
    unfold decodePaymentRequired
    cases hatob : atobBytes l with
    | none => simp
    | some bs =>
        cases hp : jsonParse bs with
        | none => simp [hp]
        | some j => simp [hp]
  · intro l
    unfold decodePaymentPayload
    cases hatob : atobBytes l with
    | none => simp
    | some bs =>
        cases hp : jsonParse bs with
        | none => simp [hp]
        | some j => simp [hp]

/-- **C8 witness.**  The amended theorem's success conjunct at a concrete
non-envelope value, and its failure conjunct exercised at a non-base64
input. -/
theorem c8_witness :
    decodePaymentRequired (btoaBytes (stringifyJson (.num 7))) = .ok (.num 7) ∧
    decodePaymentPayload (btoaBytes (stringifyJson (.num 7))) = .ok (.num 7) :=
  c8_decode_no_shape_check.1 (.num 7) (by rfl)

end Jynk

